import Mathlib

/-
Verification of the quadrotor cascaded control core (QuadControl.cpp)
against its natural-language specification.

The controllers are pure arithmetic over floats; we model them over the
real numbers, translating each function line by line.  Rotation-matrix
access (attitude.RotationMatrix_IwrtB()) and the yaw extraction are
external utilities, so controllers take the rotation-matrix entries and
the yaw angle directly as inputs.
-/

namespace QuadControl

/-- 3-component vector, mirroring the simulator's V3F (components were
32-bit floats in the source; modelled over the reals). -/
structure V3F where
  x : ℝ
  y : ℝ
  z : ℝ

/-- Modelled from the spec: component-wise addition of V3F (operator+ in
the vector utility header, which is outside src/). -/
def V3F.add (a b : V3F) : V3F := ⟨a.x + b.x, a.y + b.y, a.z + b.z⟩

/-- Modelled from the spec: component-wise subtraction of V3F (operator-
in the vector utility header, which is outside src/). -/
def V3F.sub (a b : V3F) : V3F := ⟨a.x - b.x, a.y - b.y, a.z - b.z⟩

/-- Modelled from the spec: component-wise (element-wise) product of V3F
(operator* in the vector utility header, which is outside src/). -/
def V3F.mul (a b : V3F) : V3F := ⟨a.x * b.x, a.y * b.y, a.z * b.z⟩

/-- Modelled from the spec: scalar multiplication of a V3F (operator*
with a float, in the vector utility header outside src/). -/
def V3F.scale (a : V3F) (s : ℝ) : V3F := ⟨a.x * s, a.y * s, a.z * s⟩

/-- Modelled from the spec: Euclidean magnitude of a V3F (V3F::mag in the
vector utility header, which is outside src/). -/
noncomputable def V3F.mag (a : V3F) : ℝ := Real.sqrt (a.x ^ 2 + a.y ^ 2 + a.z ^ 2)

/-- Modelled from the spec: unit vector in the direction of a V3F
(V3F::norm, each component divided by the magnitude; the header is
outside src/). -/
noncomputable def V3F.norm (a : V3F) : V3F := ⟨a.x / a.mag, a.y / a.mag, a.z / a.mag⟩

/-- Rotation matrix of the attitude (Mat3x3F returned by
RotationMatrix_IwrtB); entry rij is the source's R(i,j). -/
structure Mat3x3F where
  r00 : ℝ
  r01 : ℝ
  r02 : ℝ
  r10 : ℝ
  r11 : ℝ
  r12 : ℝ
  r20 : ℝ
  r21 : ℝ
  r22 : ℝ

/-- Modelled from the spec: the CONSTRAIN macro (defined outside src/)
saturates a value to a closed interval, returning the nearer bound when
the value lies outside it. -/
noncomputable def CONSTRAIN (x lo hi : ℝ) : ℝ :=
  if x < lo then lo else if x > hi then hi else x

/-- Modelled from the spec: the gravitational constant CONST_GRAVITY
(defined in a common header outside src/), in m/s^2. -/
noncomputable def CONST_GRAVITY : ℝ := 9.81

/-- The configuration parameters and the physical constants held as data
members of the QuadControl / BaseController classes (loaded in Init and
immutable afterwards). -/
structure QuadControlParams where
  kpPosXY : ℝ
  kpPosZ : ℝ
  KiPosZ : ℝ
  kpVelXY : ℝ
  kpVelZ : ℝ
  kpBank : ℝ
  kpYaw : ℝ
  kpPQR : V3F
  maxDescentRate : ℝ
  maxAscentRate : ℝ
  maxSpeedXY : ℝ
  maxAccelXY : ℝ
  maxTiltAngle : ℝ
  minMotorThrust : ℝ
  maxMotorThrust : ℝ
  mass : ℝ
  L : ℝ
  kappa : ℝ
  Ixx : ℝ
  Iyy : ℝ
  Izz : ℝ

/-- The four per-motor thrusts computed by GenerateMotorCommands before
the clamping step (QuadControl.cpp lines 68-87); index order is front
left, front right, rear left, rear right. -/
noncomputable def motorThrustsRaw (p : QuadControlParams) (collThrustCmd : ℝ)
    (momentCmd : V3F) : Fin 4 → ℝ :=
  let l := p.L / Real.sqrt 2
  let t1 := momentCmd.x / l
  let t2 := momentCmd.y / l
  let t3 := -momentCmd.z / p.kappa
  let t4 := collThrustCmd
  ![(t1 + t2 + t3 + t4) / 4, (-t1 + t2 - t3 + t4) / 4,
    (t1 - t2 - t3 + t4) / 4, (-t1 - t2 + t3 + t4) / 4]

/-- QuadControl::GenerateMotorCommands (lines 56-95): the raw per-motor
thrusts, each clamped to [minMotorThrust, maxMotorThrust]. -/
noncomputable def generateMotorCommands (p : QuadControlParams) (collThrustCmd : ℝ)
    (momentCmd : V3F) : Fin 4 → ℝ :=
  fun i => CONSTRAIN (motorThrustsRaw p collThrustCmd momentCmd i)
    p.minMotorThrust p.maxMotorThrust

lemma CONSTRAIN_mem (x lo hi : ℝ) (h : lo ≤ hi) :
    lo ≤ CONSTRAIN x lo hi ∧ CONSTRAIN x lo hi ≤ hi := by
  unfold CONSTRAIN
  split_ifs with h1 h2 <;> constructor <;> linarith

/-- A concrete parameter set used to instantiate proved theorems at
explicit inputs (values taken from the simulator's quadrotor config). -/
noncomputable def testParams : QuadControlParams where
  kpPosXY := 2
  kpPosZ := 3
  KiPosZ := 0.5
  kpVelXY := 4
  kpVelZ := 5
  kpBank := 6
  kpYaw := 2
  kpPQR := ⟨23, 23, 5⟩
  maxDescentRate := 3
  maxAscentRate := 5
  maxSpeedXY := 1
  maxAccelXY := 10
  maxTiltAngle := 0.7
  minMotorThrust := 0.1
  maxMotorThrust := 4.5
  mass := 0.5
  L := 0.17
  kappa := 0.016
  Ixx := 0.0023
  Iyy := 0.0023
  Izz := 0.0046

/-- C1: for every collective thrust command and every moment command,
assuming minMotorThrust ≤ maxMotorThrust, each of the four motor thrusts
returned by GenerateMotorCommands lies within
[minMotorThrust, maxMotorThrust]. -/
theorem generateMotorCommands_in_bounds (p : QuadControlParams)
    (collThrustCmd : ℝ) (momentCmd : V3F)
    (h : p.minMotorThrust ≤ p.maxMotorThrust) (i : Fin 4) :
    p.minMotorThrust ≤ generateMotorCommands p collThrustCmd momentCmd i ∧
    generateMotorCommands p collThrustCmd momentCmd i ≤ p.maxMotorThrust := by
  unfold generateMotorCommands
  exact CONSTRAIN_mem _ _ _ h

/-- Witness for C1 at a concrete thrust/moment input and motor index. -/
theorem generateMotorCommands_in_bounds_witness :
    testParams.minMotorThrust ≤ testParams.maxMotorThrust ∧
    (testParams.minMotorThrust ≤ generateMotorCommands testParams 4 ⟨1, 2, 3⟩ 0 ∧
     generateMotorCommands testParams 4 ⟨1, 2, 3⟩ 0 ≤ testParams.maxMotorThrust) :=
  ⟨by norm_num [testParams],
   generateMotorCommands_in_bounds testParams 4 ⟨1, 2, 3⟩ (by norm_num [testParams]) 0⟩

/-- Parameter set of the spec's mixer scenario: mass 0.5 kg, arm length
L = 0.17 m, kappa = 0.016 (the remaining fields as in the simulator
config). -/
noncomputable def mixerScenarioParams : QuadControlParams :=
  { testParams with mass := 0.5, L := 0.17, kappa := 0.016 }

/-- C7: with zero moment on all three axes every motor thrust equals
clamp(T/4, minMotorThrust, maxMotorThrust); in particular with L = 0.17,
kappa = 0.016 and collThrustCmd = 4.5 every unclamped motor thrust equals
1.125. -/
theorem generateMotorCommands_zero_moment (p : QuadControlParams) (T : ℝ)
    (i : Fin 4) :
    generateMotorCommands p T ⟨0, 0, 0⟩ i
      = CONSTRAIN (T / 4) p.minMotorThrust p.maxMotorThrust ∧
    motorThrustsRaw mixerScenarioParams 4.5 ⟨0, 0, 0⟩ i = 1.125 := by
  have hraw : ∀ (q : QuadControlParams) (c : ℝ) (j : Fin 4),
      motorThrustsRaw q c ⟨0, 0, 0⟩ j = c / 4 := by
    intro q c j
    fin_cases j <;>
      simp [motorThrustsRaw]
  constructor
  · unfold generateMotorCommands
    rw [hraw]
  · rw [hraw]
    norm_num

/-- C10: the sum of the four raw (pre-clamp) motor thrusts equals the
collective thrust command exactly; the moment-derived terms cancel. -/
theorem motorThrustsRaw_sum (p : QuadControlParams) (collThrustCmd : ℝ)
    (momentCmd : V3F) :
    motorThrustsRaw p collThrustCmd momentCmd 0
      + motorThrustsRaw p collThrustCmd momentCmd 1
      + motorThrustsRaw p collThrustCmd momentCmd 2
      + motorThrustsRaw p collThrustCmd momentCmd 3 = collThrustCmd := by
  simp [motorThrustsRaw]
  ring

/-- QuadControl::BodyRateControl (lines 97-117): proportional control on
the body-rate error, scaled element-wise by the moments of inertia and
the kpPQR gains. -/
def bodyRateControl (p : QuadControlParams) (pqrCmd pqr : V3F) : V3F :=
  let I : V3F := ⟨p.Ixx, p.Iyy, p.Izz⟩
  let error := pqrCmd.sub pqr
  (I.mul p.kpPQR).mul error

/-- QuadControl::RollPitchControl (lines 120-165): inverts the desired
horizontal acceleration and the current attitude into roll/pitch body
rates; the rotation matrix R of the attitude is passed directly. -/
noncomputable def rollPitchControl (p : QuadControlParams) (accelCmd : V3F)
    (R : Mat3x3F) (collThrustCmd : ℝ) : V3F :=
  if collThrustCmd > 0 then
    let c := -collThrustCmd / p.mass
    let b_x := CONSTRAIN (accelCmd.x / c) (-Real.sin p.maxTiltAngle) (Real.sin p.maxTiltAngle)
    let b_y := CONSTRAIN (accelCmd.y / c) (-Real.sin p.maxTiltAngle) (Real.sin p.maxTiltAngle)
    let b_x_d := p.kpBank * (b_x - R.r02)
    let b_y_d := p.kpBank * (b_y - R.r12)
    ⟨(R.r10 * b_x_d - R.r00 * b_y_d) / R.r22,
     (R.r11 * b_x_d - R.r01 * b_y_d) / R.r22, 0⟩
  else
    ⟨0, 0, 0⟩

/-- QuadControl::AltitudeControl (lines 167-200): PID on vertical
position with feed-forward; returns the collective thrust command and
the updated integral accumulator (the source mutates the member
integratedAltitudeError, passed and returned here explicitly). -/
noncomputable def altitudeControl (p : QuadControlParams)
    (posZCmd velZCmd posZ velZ : ℝ) (R : Mat3x3F) (accelZCmd dt : ℝ)
    (integratedAltitudeError : ℝ) : ℝ × ℝ :=
  let zErr := posZCmd - posZ
  let pTerm := p.kpPosZ * zErr
  let z_dot_err := velZCmd - velZ
  let newIntegratedAltitudeError := integratedAltitudeError + zErr * dt
  let dTerm := p.kpVelZ * z_dot_err + velZ
  let iTerm := p.KiPosZ * newIntegratedAltitudeError
  let b_z := R.r22
  let u_1_bar := pTerm + dTerm + iTerm + accelZCmd
  let acc := (u_1_bar - CONST_GRAVITY) / b_z
  let thrust := -p.mass * CONSTRAIN acc (-p.maxAscentRate / dt) (p.maxAscentRate / dt)
  (thrust, newIntegratedAltitudeError)

/-- The altitude command as the spec's sentence orders the operations:
divide the summed terms by R(2,2) first, and only then subtract the
gravitational constant (stated for comparison with altitudeControl,
which subtracts gravity before dividing). -/
noncomputable def altitudeControlSpecOrder (p : QuadControlParams)
    (posZCmd velZCmd posZ velZ : ℝ) (R : Mat3x3F) (accelZCmd dt : ℝ)
    (integratedAltitudeError : ℝ) : ℝ :=
  let zErr := posZCmd - posZ
  let pTerm := p.kpPosZ * zErr
  let z_dot_err := velZCmd - velZ
  let newIntegratedAltitudeError := integratedAltitudeError + zErr * dt
  let dTerm := p.kpVelZ * z_dot_err + velZ
  let iTerm := p.KiPosZ * newIntegratedAltitudeError
  let b_z := R.r22
  let u_1_bar := pTerm + dTerm + iTerm + accelZCmd
  let acc := u_1_bar / b_z - CONST_GRAVITY
  let thrust := -p.mass * CONSTRAIN acc (-p.maxAscentRate / dt) (p.maxAscentRate / dt)
  thrust

/-- The identity rotation matrix, used to instantiate theorems at a
level attitude. -/
noncomputable def idR : Mat3x3F := ⟨1, 0, 0, 0, 1, 0, 0, 0, 1⟩

/-- C5: whenever the collective thrust command is nonpositive,
RollPitchControl returns the zero body-rate vector, regardless of the
desired acceleration and the attitude. -/
theorem rollPitchControl_nonpos_thrust (p : QuadControlParams)
    (accelCmd : V3F) (R : Mat3x3F) (collThrustCmd : ℝ)
    (h : collThrustCmd ≤ 0) :
    rollPitchControl p accelCmd R collThrustCmd = ⟨0, 0, 0⟩ := by
  unfold rollPitchControl
  rw [if_neg (not_lt.mpr h)]

/-- Witness for C5 at a concrete acceleration, attitude and zero
thrust. -/
theorem rollPitchControl_nonpos_thrust_witness :
    (0 : ℝ) ≤ 0 ∧ rollPitchControl testParams ⟨1, 2, 3⟩ idR 0 = ⟨0, 0, 0⟩ :=
  ⟨le_refl 0, rollPitchControl_nonpos_thrust testParams ⟨1, 2, 3⟩ idR 0 (le_refl 0)⟩

/-- C3: AltitudeControl applies no minimum clamp to dt; at dt = 0 the
saturation bound maxAscentRate/dt is a division by zero.  In this real
arithmetic embedding (where x/0 = 0) the unguarded bound collapses the
saturation interval to [0,0], so the returned thrust is 0 for every
input, demonstrating that the computation at dt = 0 is degenerate rather
than guarded. -/
theorem altitudeControl_dt_zero_unguarded (p : QuadControlParams)
    (posZCmd velZCmd posZ velZ : ℝ) (R : Mat3x3F) (accelZCmd : ℝ)
    (integ : ℝ) :
    (altitudeControl p posZCmd velZCmd posZ velZ R accelZCmd 0 integ).1 = 0 := by
  simp only [altitudeControl, CONSTRAIN, div_zero]
  split_ifs with h1 h2
  · ring
  · ring
  · have hz : (p.kpPosZ * (posZCmd - posZ) + (p.kpVelZ * (velZCmd - velZ) + velZ)
        + p.KiPosZ * (integ + (posZCmd - posZ) * 0) + accelZCmd - CONST_GRAVITY) / R.r22
        = 0 := le_antisymm (not_lt.mp h2) (by simpa [neg_zero] using not_lt.mp h1)
    rw [hz]
    ring

/-- Parameter set for the C4 comparison: unit mass, zero gains, wide
ascent-rate limit. -/
noncomputable def c4Params : QuadControlParams :=
  { testParams with mass := 1, kpPosZ := 0, kpVelZ := 0, KiPosZ := 0, maxAscentRate := 100 }

/-- A tilted attitude whose R(2,2) entry is 1/2, used to separate the
two operation orders in C4. -/
noncomputable def c4R : Mat3x3F := ⟨1, 0, 0, 0, 1, 0, 0, 0, 1 / 2⟩

/-- C4 counterexample: with R(2,2) = 1/2, zero gains and zero inputs the
thrust computed by the code (subtract gravity, then divide by R(2,2))
differs from the spec's stated order (divide by R(2,2), then subtract
gravity): 19.62 versus 9.81 N. -/
theorem altitudeControl_order_counterexample :
    (altitudeControl c4Params 0 0 0 0 c4R 0 1 0).1
      ≠ altitudeControlSpecOrder c4Params 0 0 0 0 c4R 0 1 0 := by
  have h1 : (altitudeControl c4Params 0 0 0 0 c4R 0 1 0).1 = 19.62 := by
    simp only [altitudeControl, c4Params, c4R, testParams, CONST_GRAVITY, CONSTRAIN]
    norm_num
  have h2 : altitudeControlSpecOrder c4Params 0 0 0 0 c4R 0 1 0 = 9.81 := by
    simp only [altitudeControlSpecOrder, c4Params, c4R, testParams, CONST_GRAVITY, CONSTRAIN]
    norm_num
  rw [h1, h2]
  norm_num

/-- C4 (amended): the thrust returned by AltitudeControl equals -mass
times the clamp to [-maxAscentRate/dt, +maxAscentRate/dt] of the
acceleration obtained by summing the proportional, derivative-like,
integral and feed-forward terms, subtracting the gravitational constant,
and then dividing by R(2,2). -/
theorem altitudeControl_formula (p : QuadControlParams)
    (posZCmd velZCmd posZ velZ : ℝ) (R : Mat3x3F) (accelZCmd dt integ : ℝ) :
    (altitudeControl p posZCmd velZCmd posZ velZ R accelZCmd dt integ).1
      = -p.mass * CONSTRAIN
          ((p.kpPosZ * (posZCmd - posZ)
            + (p.kpVelZ * (velZCmd - velZ) + velZ)
            + p.KiPosZ * (integ + (posZCmd - posZ) * dt)
            + accelZCmd - CONST_GRAVITY) / R.r22)
          (-p.maxAscentRate / dt) (p.maxAscentRate / dt) := rfl

/-- The velocity command actually used in LateralPositionControl's
control sum (lines 223 and 241-249): the desired velocity with its Z
component forced to 0, capped to magnitude maxSpeedXY with its direction
preserved when it exceeds that limit. -/
noncomputable def lateralCapVelCmd (p : QuadControlParams) (velCmd : V3F) : V3F :=
  let velCmdZ : V3F := ⟨velCmd.x, velCmd.y, 0⟩
  if velCmdZ.mag > p.maxSpeedXY then velCmdZ.norm.scale p.maxSpeedXY else velCmdZ

/-- QuadControl::LateralPositionControl (lines 203-259): PD control with
feed-forward on horizontal position, with velocity and acceleration
saturation. -/
noncomputable def lateralPositionControl (p : QuadControlParams)
    (posCmd velCmd pos vel accelCmdFF : V3F) : V3F :=
  let accelCmdFFz : V3F := ⟨accelCmdFF.x, accelCmdFF.y, 0⟩
  let posCmdZ : V3F := ⟨posCmd.x, posCmd.y, pos.z⟩
  let accelCmd := accelCmdFFz
  let kpPos : V3F := ⟨p.kpPosXY, p.kpPosXY, 0⟩
  let kpVel : V3F := ⟨p.kpVelXY, p.kpVelXY, 0⟩
  let capVelCmd := lateralCapVelCmd p velCmd
  let accelCmd2 :=
    ((kpPos.mul (posCmdZ.sub pos)).add (kpVel.mul (capVelCmd.sub vel))).add accelCmd
  if accelCmd2.mag > p.maxAccelXY then accelCmd2.norm.scale p.maxAccelXY else accelCmd2

lemma V3F.mag_nonneg (v : V3F) : 0 ≤ v.mag := Real.sqrt_nonneg _

lemma V3F.mag_scale (v : V3F) (c : ℝ) : (v.scale c).mag = |c| * v.mag := by
  simp only [V3F.mag, V3F.scale]
  rw [show (v.x * c) ^ 2 + (v.y * c) ^ 2 + (v.z * c) ^ 2
      = c ^ 2 * (v.x ^ 2 + v.y ^ 2 + v.z ^ 2) by ring]
  rw [Real.sqrt_mul (sq_nonneg c), Real.sqrt_sq_eq_abs]

/-- C8: the velocity command used by LateralPositionControl equals the
z-zeroed desired velocity scaled by maxSpeedXY/|velCmd| when its
magnitude exceeds maxSpeedXY — a nonnegative multiple of the desired
velocity, hence the same direction — and is the z-zeroed desired
velocity unchanged otherwise; in the capped case its magnitude is
exactly maxSpeedXY. -/
theorem lateralCapVelCmd_caps (p : QuadControlParams) (velCmd : V3F)
    (hmax : 0 ≤ p.maxSpeedXY) :
    lateralCapVelCmd p velCmd
      = (if (V3F.mk velCmd.x velCmd.y 0).mag > p.maxSpeedXY
         then (V3F.mk velCmd.x velCmd.y 0).scale
            (p.maxSpeedXY / (V3F.mk velCmd.x velCmd.y 0).mag)
         else V3F.mk velCmd.x velCmd.y 0)
    ∧ (lateralCapVelCmd p velCmd).mag
      = (if (V3F.mk velCmd.x velCmd.y 0).mag > p.maxSpeedXY
         then p.maxSpeedXY else (V3F.mk velCmd.x velCmd.y 0).mag)
    ∧ 0 ≤ p.maxSpeedXY / (V3F.mk velCmd.x velCmd.y 0).mag := by
  have hwnn : 0 ≤ (V3F.mk velCmd.x velCmd.y 0).mag := V3F.mag_nonneg _
  have hdiv : 0 ≤ p.maxSpeedXY / (V3F.mk velCmd.x velCmd.y 0).mag :=
    div_nonneg hmax hwnn
  by_cases hgt : (V3F.mk velCmd.x velCmd.y 0).mag > p.maxSpeedXY
  · have hmpos : 0 < (V3F.mk velCmd.x velCmd.y 0).mag := lt_of_le_of_lt hmax hgt
    have h1 : lateralCapVelCmd p velCmd
        = (V3F.mk velCmd.x velCmd.y 0).scale
            (p.maxSpeedXY / (V3F.mk velCmd.x velCmd.y 0).mag) := by
      simp only [lateralCapVelCmd]
      rw [if_pos hgt]
      simp only [V3F.norm, V3F.scale, V3F.mk.injEq]
      refine ⟨by ring, by ring, by ring⟩
    refine ⟨by rw [h1, if_pos hgt], ?_, hdiv⟩
    rw [h1, if_pos hgt, V3F.mag_scale, abs_of_nonneg hdiv,
      div_mul_cancel₀ _ (ne_of_gt hmpos)]
  · have h1 : lateralCapVelCmd p velCmd = V3F.mk velCmd.x velCmd.y 0 := by
      simp only [lateralCapVelCmd]
      rw [if_neg hgt]
    exact ⟨by rw [h1, if_neg hgt], by rw [h1, if_neg hgt], hdiv⟩

/-- Witness for C8 at a concrete desired velocity (3,4,12): its
horizontal part (3,4,0) has magnitude 5, above the limit 1. -/
theorem lateralCapVelCmd_caps_witness :
    (0 : ℝ) ≤ testParams.maxSpeedXY ∧
    (lateralCapVelCmd testParams ⟨3, 4, 12⟩
      = (if (V3F.mk 3 4 0).mag > testParams.maxSpeedXY
         then (V3F.mk 3 4 0).scale (testParams.maxSpeedXY / (V3F.mk 3 4 0).mag)
         else V3F.mk 3 4 0)
    ∧ (lateralCapVelCmd testParams ⟨3, 4, 12⟩).mag
      = (if (V3F.mk 3 4 0).mag > testParams.maxSpeedXY
         then testParams.maxSpeedXY else (V3F.mk 3 4 0).mag)
    ∧ 0 ≤ testParams.maxSpeedXY / (V3F.mk 3 4 0).mag) :=
  ⟨by norm_num [testParams],
   lateralCapVelCmd_caps testParams ⟨3, 4, 12⟩ (by norm_num [testParams])⟩

/-- Modelled from the spec: truncation toward zero on the reals, as the
C library fmodf performs on its quotient. -/
noncomputable def ftrunc (x : ℝ) : ℤ := if 0 ≤ x then ⌊x⌋ else ⌈x⌉

/-- Modelled from the spec: the C library fmodf over the reals,
fmodf x y = x - y * trunc(x / y). -/
noncomputable def fmodf (x y : ℝ) : ℝ := x - y * (ftrunc (x / y) : ℝ)

/-- The sign-aware wrap of the desired yaw (QuadControl.cpp lines
276-283): positive commands are reduced modulo 2π, nonpositive ones via
the negated modulo. -/
noncomputable def yawCmdWrap (yawCmd : ℝ) : ℝ :=
  if yawCmd > 0 then fmodf yawCmd (2 * Real.pi)
  else -fmodf (-yawCmd) (2 * Real.pi)

/-- The yaw error computed inside YawControl after the wrap and the two
±2π corrections (lines 285-294). -/
noncomputable def yawControlErr (yawCmd yaw : ℝ) : ℝ :=
  let err0 := yawCmdWrap yawCmd - yaw
  let err1 := if err0 > Real.pi then err0 - 2 * Real.pi else err0
  let err2 := if err1 < -Real.pi then err1 + 2 * Real.pi else err1
  err2

/-- QuadControl::YawControl (lines 262-300): proportional gain on the
wrapped yaw error. -/
noncomputable def yawControl (p : QuadControlParams) (yawCmd yaw : ℝ) : ℝ :=
  p.kpYaw * yawControlErr yawCmd yaw

lemma fmodf_nonneg_lt (x y : ℝ) (hx : 0 ≤ x) (hy : 0 < y) :
    0 ≤ fmodf x y ∧ fmodf x y < y := by
  unfold fmodf ftrunc
  rw [if_pos (div_nonneg hx hy.le)]
  have hfl := Int.floor_le (x / y)
  have hfu := Int.lt_floor_add_one (x / y)
  constructor
  · have h1 : (⌊x / y⌋ : ℝ) * y ≤ x / y * y := mul_le_mul_of_nonneg_right hfl hy.le
    rw [div_mul_cancel₀ x (ne_of_gt hy)] at h1
    nlinarith
  · have h1 : x / y * y < ((⌊x / y⌋ : ℝ) + 1) * y := mul_lt_mul_of_pos_right hfu hy
    rw [div_mul_cancel₀ x (ne_of_gt hy)] at h1
    nlinarith

lemma yawCmdWrap_bounds (yawCmd : ℝ) :
    -(2 * Real.pi) < yawCmdWrap yawCmd ∧ yawCmdWrap yawCmd < 2 * Real.pi := by
  have h2pi : 0 < 2 * Real.pi := by linarith [Real.pi_pos]
  unfold yawCmdWrap
  split_ifs with h
  · have hb := fmodf_nonneg_lt yawCmd (2 * Real.pi) (le_of_lt h) h2pi
    exact ⟨by linarith [hb.1], hb.2⟩
  · have hb := fmodf_nonneg_lt (-yawCmd) (2 * Real.pi) (by linarith [not_lt.mp h]) h2pi
    exact ⟨by linarith [hb.2], by linarith [hb.1]⟩

/-- C2 (amended): for every desired yaw and every current yaw in
[-π, π], the yaw error computed inside YawControl satisfies
-π ≤ error ≤ π; for all inputs the returned rate equals kpYaw times
that error. -/
theorem yawControl_err_bounds (p : QuadControlParams) (yawCmd yaw : ℝ)
    (h1 : -Real.pi ≤ yaw) (h2 : yaw ≤ Real.pi) :
    (-Real.pi ≤ yawControlErr yawCmd yaw ∧ yawControlErr yawCmd yaw ≤ Real.pi) ∧
    yawControl p yawCmd yaw = p.kpYaw * yawControlErr yawCmd yaw := by
  refine ⟨?_, rfl⟩
  have hw := yawCmdWrap_bounds yawCmd
  have hpi := Real.pi_pos
  simp only [yawControlErr]
  split_ifs with ha hb hb <;>
    constructor <;> linarith [hw.1, hw.2]

/-- Witness for C2 (amended): desired yaw 3π and current yaw 0 (the
spec's boundary scenario). -/
theorem yawControl_err_bounds_witness :
    (-Real.pi ≤ (0 : ℝ) ∧ (0 : ℝ) ≤ Real.pi) ∧
    ((-Real.pi ≤ yawControlErr (3 * Real.pi) 0 ∧
      yawControlErr (3 * Real.pi) 0 ≤ Real.pi) ∧
     yawControl testParams (3 * Real.pi) 0
       = testParams.kpYaw * yawControlErr (3 * Real.pi) 0) :=
  ⟨⟨by linarith [Real.pi_pos], Real.pi_nonneg⟩,
   yawControl_err_bounds testParams (3 * Real.pi) 0
     (by linarith [Real.pi_pos]) Real.pi_nonneg⟩

/-- C2 counterexample: with desired yaw 0 and current yaw 4π (an
arbitrary real radian value) the error computed by YawControl is -2π,
which violates -π ≤ error: a single ±2π correction cannot wrap an
arbitrary current yaw. -/
theorem yawControl_err_counterexample :
    yawControlErr 0 (4 * Real.pi) = -(2 * Real.pi) ∧
    ¬ (-Real.pi ≤ yawControlErr 0 (4 * Real.pi)) := by
  have hpi := Real.pi_pos
  have hfz : fmodf 0 (2 * Real.pi) = 0 := by
    simp [fmodf, ftrunc]
  have hwz : yawCmdWrap 0 = 0 := by
    simp [yawCmdWrap, hfz]
  have herr : yawControlErr 0 (4 * Real.pi) = -(2 * Real.pi) := by
    simp only [yawControlErr, hwz]
    have hinner : (if 0 - 4 * Real.pi > Real.pi
        then 0 - 4 * Real.pi - 2 * Real.pi else 0 - 4 * Real.pi)
        = 0 - 4 * Real.pi := if_neg (by linarith)
    rw [hinner, if_pos (by linarith)]
    ring
  refine ⟨herr, ?_⟩
  rw [herr]
  intro hc
  linarith

/-- The per-tick inputs of AltitudeControl other than dt and the
accumulator. -/
structure AltTick where
  posZCmd : ℝ
  velZCmd : ℝ
  posZ : ℝ
  velZ : ℝ
  R : Mat3x3F
  accelZCmd : ℝ

/-- The successive values of the integral accumulator over a sequence of
AltitudeControl ticks with fixed dt, starting from integ0 (the first
list element is the initial value). -/
noncomputable def altitudeIntegralTrace (p : QuadControlParams) (dt : ℝ) :
    List AltTick → ℝ → List ℝ
  | [], integ0 => [integ0]
  | t :: ts, integ0 =>
      integ0 :: altitudeIntegralTrace p dt ts
        (altitudeControl p t.posZCmd t.velZCmd t.posZ t.velZ t.R t.accelZCmd dt integ0).2

lemma altitudeIntegralTrace_head (p : QuadControlParams) (dt : ℝ)
    (ticks : List AltTick) (integ0 : ℝ) :
    (altitudeIntegralTrace p dt ticks integ0).head? = some integ0 := by
  cases ticks <;> rfl

lemma altitudeControl_integ_step (p : QuadControlParams)
    (posZCmd velZCmd posZ velZ : ℝ) (R : Mat3x3F) (accelZCmd dt integ : ℝ) :
    (altitudeControl p posZCmd velZCmd posZ velZ R accelZCmd dt integ).2
      = integ + (posZCmd - posZ) * dt := rfl

lemma altitudeIntegralTrace_chain_le (p : QuadControlParams) (dt : ℝ)
    (hdt : 0 ≤ dt) :
    ∀ (ticks : List AltTick) (integ0 : ℝ),
      (∀ t ∈ ticks, t.posZ ≤ t.posZCmd) →
      List.Chain' (fun a b => a ≤ b) (altitudeIntegralTrace p dt ticks integ0) := by
  intro ticks
  induction ticks with
  | nil =>
      intro integ0 h
      simp [altitudeIntegralTrace]
  | cons t ts ih =>
      intro integ0 h
      simp only [altitudeIntegralTrace]
      rw [List.chain'_cons']
      constructor
      · intro b hb
        rw [altitudeIntegralTrace_head, Option.mem_some_iff] at hb
        subst hb
        rw [altitudeControl_integ_step]
        have herr : t.posZ ≤ t.posZCmd := h t (List.mem_cons_self t ts)
        nlinarith [mul_nonneg (sub_nonneg.mpr herr) hdt]
      · exact ih _ (fun u hu => h u (List.mem_cons_of_mem t hu))

lemma altitudeIntegralTrace_chain_ge (p : QuadControlParams) (dt : ℝ)
    (hdt : 0 ≤ dt) :
    ∀ (ticks : List AltTick) (integ0 : ℝ),
      (∀ t ∈ ticks, t.posZCmd ≤ t.posZ) →
      List.Chain' (fun a b => b ≤ a) (altitudeIntegralTrace p dt ticks integ0) := by
  intro ticks
  induction ticks with
  | nil =>
      intro integ0 h
      simp [altitudeIntegralTrace]
  | cons t ts ih =>
      intro integ0 h
      simp only [altitudeIntegralTrace]
      rw [List.chain'_cons']
      constructor
      · intro b hb
        rw [altitudeIntegralTrace_head, Option.mem_some_iff] at hb
        subst hb
        rw [altitudeControl_integ_step]
        have herr : t.posZCmd ≤ t.posZ := h t (List.mem_cons_self t ts)
        nlinarith [mul_nonneg (sub_nonneg.mpr herr) hdt]
      · exact ih _ (fun u hu => h u (List.mem_cons_of_mem t hu))

/-- C6: every AltitudeControl call adds exactly (posZCmd - posZ)·dt to
the integral accumulator, with no clamp; consequently over consecutive
ticks with fixed dt > 0 the accumulator values form a nondecreasing
sequence while the altitude error stays nonnegative, and a nonincreasing
sequence while it stays nonpositive. -/
theorem altitudeControl_integral_monotone (p : QuadControlParams)
    (posZCmd velZCmd posZ velZ : ℝ) (R : Mat3x3F) (accelZCmd : ℝ)
    (dt integ : ℝ) (ticksUp ticksDown : List AltTick) (integU integD : ℝ)
    (hdt : 0 < dt)
    (hup : ∀ t ∈ ticksUp, t.posZ ≤ t.posZCmd)
    (hdown : ∀ t ∈ ticksDown, t.posZCmd ≤ t.posZ) :
    (altitudeControl p posZCmd velZCmd posZ velZ R accelZCmd dt integ).2
      = integ + (posZCmd - posZ) * dt
    ∧ List.Chain' (fun a b => a ≤ b) (altitudeIntegralTrace p dt ticksUp integU)
    ∧ List.Chain' (fun a b => b ≤ a) (altitudeIntegralTrace p dt ticksDown integD) :=
  ⟨altitudeControl_integ_step p posZCmd velZCmd posZ velZ R accelZCmd dt integ,
   altitudeIntegralTrace_chain_le p dt hdt.le ticksUp integU hup,
   altitudeIntegralTrace_chain_ge p dt hdt.le ticksDown integD hdown⟩

/-- A tick with positive altitude error (posZCmd 1 above posZ 0). -/
noncomputable def c6TickUp : AltTick := ⟨1, 0, 0, 0, idR, 0⟩

/-- A tick with negative altitude error (posZCmd 0 below posZ 1). -/
noncomputable def c6TickDown : AltTick := ⟨0, 0, 1, 0, idR, 0⟩

/-- Witness for C6 at dt = 1 with one positive-error tick and one
negative-error tick. -/
theorem altitudeControl_integral_monotone_witness :
    ((0 : ℝ) < 1 ∧ (∀ t ∈ [c6TickUp], t.posZ ≤ t.posZCmd) ∧
      (∀ t ∈ [c6TickDown], t.posZCmd ≤ t.posZ)) ∧
    ((altitudeControl testParams 2 0 0 0 idR 0 1 0).2 = 0 + (2 - 0) * 1
     ∧ List.Chain' (fun a b => a ≤ b) (altitudeIntegralTrace testParams 1 [c6TickUp] 0)
     ∧ List.Chain' (fun a b => b ≤ a) (altitudeIntegralTrace testParams 1 [c6TickDown] 0)) := by
  have hup : ∀ t ∈ [c6TickUp], t.posZ ≤ t.posZCmd := by
    intro t ht
    rw [List.mem_singleton] at ht
    subst ht
    norm_num [c6TickUp]
  have hdown : ∀ t ∈ [c6TickDown], t.posZCmd ≤ t.posZ := by
    intro t ht
    rw [List.mem_singleton] at ht
    subst ht
    norm_num [c6TickDown]
  exact ⟨⟨by norm_num, hup, hdown⟩,
    altitudeControl_integral_monotone testParams 2 0 0 0 idR 0 1 0
      [c6TickUp] [c6TickDown] 0 0 (by norm_num) hup hdown⟩

/-- The trajectory point consumed in a control tick: position, velocity
and acceleration from the trajectory source, plus the yaw of its desired
attitude (attitude.Yaw()). -/
structure TrajectoryPoint where
  position : V3F
  velocity : V3F
  accel : V3F
  yaw : ℝ

/-- The estimated vehicle state read by RunControl: position, velocity,
body rates, and the attitude as its rotation matrix and yaw. -/
structure QuadState where
  estPos : V3F
  estVel : V3F
  estOmega : V3F
  estAttR : Mat3x3F
  estAttYaw : ℝ

/-- QuadControl::RunControl (lines 302-320): one control tick composing
altitude control, the thrust-margin clamp, lateral position control,
roll/pitch control, yaw control, body-rate control and the motor mixer;
returns the motor commands and the updated integral accumulator. -/
noncomputable def runControl (p : QuadControlParams) (traj : TrajectoryPoint)
    (s : QuadState) (dt integ : ℝ) : (Fin 4 → ℝ) × ℝ :=
  let ac := altitudeControl p traj.position.z traj.velocity.z s.estPos.z
    s.estVel.z s.estAttR traj.accel.z dt integ
  let collThrustCmd0 := ac.1
  let newInteg := ac.2
  let thrustMargin := 0.1 * (p.maxMotorThrust - p.minMotorThrust)
  let collThrustCmd := CONSTRAIN collThrustCmd0
    ((p.minMotorThrust + thrustMargin) * 4) ((p.maxMotorThrust - thrustMargin) * 4)
  let desAcc := lateralPositionControl p traj.position traj.velocity s.estPos
    s.estVel traj.accel
  let desOmega0 := rollPitchControl p desAcc s.estAttR collThrustCmd
  let desOmega : V3F := ⟨desOmega0.x, desOmega0.y, yawControl p traj.yaw s.estAttYaw⟩
  let desMoment := bodyRateControl p desOmega s.estOmega
  (generateMotorCommands p collThrustCmd desMoment, newInteg)

/-- C9: maxDescentRate has no effect on any output: two parameter sets
that agree on every field except maxDescentRate produce identical
AltitudeControl results (thrust and updated accumulator) and identical
RunControl results (motor commands and updated accumulator). -/
theorem maxDescentRate_no_effect (p q : QuadControlParams)
    (traj : TrajectoryPoint) (s : QuadState) (dt integ : ℝ)
    (posZCmd velZCmd posZ velZ : ℝ) (R : Mat3x3F) (accelZCmd : ℝ)
    (h : { p with maxDescentRate := 0 } = { q with maxDescentRate := 0 }) :
    altitudeControl p posZCmd velZCmd posZ velZ R accelZCmd dt integ
      = altitudeControl q posZCmd velZCmd posZ velZ R accelZCmd dt integ ∧
    runControl p traj s dt integ = runControl q traj s dt integ := by
  obtain ⟨a1, a2, a3, a4, a5, a6, a7, a8, a9, a10, a11, a12, a13, a14, a15, a16,
    a17, a18, a19, a20, a21⟩ := p
  obtain ⟨b1, b2, b3, b4, b5, b6, b7, b8, b9, b10, b11, b12, b13, b14, b15, b16,
    b17, b18, b19, b20, b21⟩ := q
  simp only [QuadControlParams.mk.injEq] at h
  obtain ⟨h1, h2, h3, h4, h5, h6, h7, h8, -, h10, h11, h12, h13, h14, h15, h16,
    h17, h18, h19, h20, h21⟩ := h
  subst_vars
  exact ⟨rfl, rfl⟩

/-- A parameter set equal to testParams except for maxDescentRate. -/
noncomputable def altDescentParams : QuadControlParams :=
  { testParams with maxDescentRate := 99 }

/-- A concrete trajectory point for the C9 witness. -/
noncomputable def c9Traj : TrajectoryPoint := ⟨⟨1, 2, 3⟩, ⟨0, 1, 0⟩, ⟨0, 0, 1⟩, 1⟩

/-- A concrete estimated state for the C9 witness. -/
noncomputable def c9State : QuadState := ⟨⟨1, 1, 2⟩, ⟨0, 0, 0⟩, ⟨0, 0, 0⟩, idR, 0⟩

/-- Witness for C9: testParams and altDescentParams differ only in
maxDescentRate and give identical outputs on a concrete tick. -/
theorem maxDescentRate_no_effect_witness :
    ({ testParams with maxDescentRate := 0 }
      = { altDescentParams with maxDescentRate := 0 }) ∧
    (altitudeControl testParams 1 0 0 0 idR 0 1 0
       = altitudeControl altDescentParams 1 0 0 0 idR 0 1 0 ∧
     runControl testParams c9Traj c9State 1 0
       = runControl altDescentParams c9Traj c9State 1 0) :=
  ⟨rfl, maxDescentRate_no_effect testParams altDescentParams c9Traj c9State 1 0
    1 0 0 0 idR 0 rfl⟩

end QuadControl
